import Mathlib

/-!
Verification of the orchestration/merge layer of the multi-agent stock
screening chatbot (src/app/agents.py, src/app/services/market_data.py,
src/app/services/sentiment.py).

Numeric convention: Python floats are embedded as exact rationals; the
properties verified here (counts, branch selection, list merges, the
progress formula at its 36 reachable inputs) were checked to be
insensitive to binary floating point rounding.  Strings are modelled at
ASCII fidelity (Python str.upper / str.strip / regex character classes
agree with the model on ASCII input).
-/

/-! ## Python string primitives (ASCII model) -/

/-- Characters removed by Python str.strip with no argument. -/
def pyIsSpace (c : Char) : Bool :=
  c = ' ' || c = '\t' || c = '\n' || c = '\r' || c = Char.ofNat 11 || c = Char.ofNat 12

/-- Python str.strip: drop whitespace from both ends. -/
def pyStrip (l : List Char) : List Char :=
  ((l.dropWhile pyIsSpace).reverse.dropWhile pyIsSpace).reverse

/-- Python str.upper on an ASCII character. -/
def pyUpperChar (c : Char) : Char :=
  if 'a' ≤ c && c ≤ 'z' then Char.ofNat (c.toNat - 32) else c

/-- Python str.upper on a string, as a character list. -/
def pyUpper (l : List Char) : List Char := l.map pyUpperChar

/-- The regex class A-Z. -/
def isUpperAlpha (c : Char) : Bool := 'A' ≤ c && c ≤ 'Z'

/-- One character of the regex in validate_stock_symbol. -/
def isUpperOrDot (c : Char) : Bool := isUpperAlpha c || c = '.'

/-- Python substring test: needle in hay. -/
def containsSub (needle hay : List Char) : Bool :=
  hay.tails.any (fun t => needle.isPrefixOf t)

/-- Two dots in a row somewhere in the list (Python: dotdot in symbol). -/
def hasConsecutiveDots : List Char → Bool
  | [] => false
  | [_] => false
  | c1 :: c2 :: rest => (c1 = '.' && c2 = '.') || hasConsecutiveDots (c2 :: rest)

/-! ## validate_stock_symbol (src/app/services/market_data.py lines 30-68)

The Python function returns True or raises InvalidSymbolError with a
message; it is embedded as Except String Bool where .error carries the
InvalidSymbolError message. -/

/-- validate_stock_symbol: strip and uppercase, then check length 1-5,
characters A-Z or dot, no dot at either end, no consecutive dots. -/
def validate_stock_symbol (symbol : String) : Except String Bool :=
  if symbol.data = [] then
    .error "Symbol must be a non-empty string"
  else
    let s := pyUpper (pyStrip symbol.data)
    if s.length < 1 || 5 < s.length then
      .error "Stock symbols must be 1-5 characters long"
    else if ¬ s.all isUpperOrDot then
      .error "Stock symbols can only contain letters and dots"
    else if s.head? = some '.' || s.getLast? = some '.' then
      .error "Cannot start or end with a dot"
    else if hasConsecutiveDots s then
      .error "Cannot contain consecutive dots"
    else
      .ok true

/-- The set of strings validate_stock_symbol accepts, stated as in the
amended claim: after stripping whitespace and uppercasing, the symbol is
1-5 characters drawn from uppercase letters and dots, with no leading,
trailing or consecutive dot. -/
def normalizedSymbolValid (symbol : String) : Prop :=
  symbol.data ≠ [] ∧
  1 ≤ (pyUpper (pyStrip symbol.data)).length ∧
  (pyUpper (pyStrip symbol.data)).length ≤ 5 ∧
  (pyUpper (pyStrip symbol.data)).all isUpperOrDot = true ∧
  (pyUpper (pyStrip symbol.data)).head? ≠ some '.' ∧
  (pyUpper (pyStrip symbol.data)).getLast? ≠ some '.' ∧
  hasConsecutiveDots (pyUpper (pyStrip symbol.data)) = false

example : validate_stock_symbol "AAPL" = .ok true := rfl
example : validate_stock_symbol "aapl" = .ok true := rfl
example : validate_stock_symbol "go.gl" = .ok true := rfl
example : (validate_stock_symbol "BRK..B").isOk = false := by decide
example : (validate_stock_symbol "ABCD.E").isOk = false := by decide
example : (validate_stock_symbol ".AB").isOk = false := by decide
example : (validate_stock_symbol "").isOk = false := by decide
example : (validate_stock_symbol "ABCDEF").isOk = false := by decide
example : validate_stock_symbol " AAPL " = .ok true := rfl

/-! ## Data model (src/app/schemas.py)

Pydantic optional float fields are embedded as Option of rationals;
datetimes as optional strings (their values are never computed with). -/

/-- SentimentScore enum (schemas.py lines 12-17). -/
inductive SentimentScore
  | very_positive
  | positive
  | neutral
  | negative
  | very_negative
deriving DecidableEq, Repr

/-- FinancialMetrics (schemas.py lines 46-64): 18 independent optional
numbers, all defaulting to null. -/
structure FinancialMetrics where
  market_cap : Option ℚ := none
  pe_ratio : Option ℚ := none
  peg_ratio : Option ℚ := none
  price_to_book : Option ℚ := none
  price_to_sales : Option ℚ := none
  revenue_ttm : Option ℚ := none
  gross_margin : Option ℚ := none
  operating_margin : Option ℚ := none
  profit_margin : Option ℚ := none
  return_on_equity : Option ℚ := none
  return_on_assets : Option ℚ := none
  debt_to_equity : Option ℚ := none
  current_ratio : Option ℚ := none
  quick_ratio : Option ℚ := none
  dividend_yield : Option ℚ := none
  beta : Option ℚ := none
  fifty_two_week_high : Option ℚ := none
  fifty_two_week_low : Option ℚ := none
deriving DecidableEq, Repr

/-- FinancialMetrics() with every field at its null default. -/
def emptyMetrics : FinancialMetrics := {}

/-- AnalystRating (schemas.py lines 30-34). -/
structure AnalystRating where
  firm : String
  rating : String
  price_target : Option ℚ := none
  date : Option String := none
deriving DecidableEq, Repr

/-- EarningsData (schemas.py lines 37-43). -/
structure EarningsData where
  eps_estimate : Option ℚ := none
  eps_actual : Option ℚ := none
  revenue_estimate : Option ℚ := none
  revenue_actual : Option ℚ := none
  quarter : Option String := none
  year : Option ℤ := none
deriving DecidableEq, Repr

/-- SentimentItem (schemas.py lines 20-27). -/
structure SentimentItem where
  source : String
  title : String
  polarity : ℚ
  sentiment_score : SentimentScore
  published_at : Option String := none
  url : Option String := none
deriving DecidableEq, Repr

/-- SentimentSummary (schemas.py lines 67-73).  The confidence is a real
number because the source computes it from a standard deviation (a square
root); every value a claim inspects is rational. -/
structure SentimentSummary where
  overall_score : SentimentScore
  confidence : ℝ
  positive_count : ℕ
  negative_count : ℕ
  neutral_count : ℕ
  summary_text : String

/-- The price dict built by the price fetchers (market_data.py lines
113-120 and 160-167).  Fields are optional because format_response and
the price validator probe for key presence. -/
structure PriceData where
  price : Option ℚ := none
  change : Option ℚ := none
  change_percent : Option ℚ := none
  volume : Option ℤ := none
  currency : Option String := none
  source : Option String := none
deriving DecidableEq, Repr

/-- StockResponse (schemas.py lines 76-103) without the last_updated
timestamp (a wall-clock value outside the model). -/
structure StockResponse where
  symbol : String
  company_name : Option String := none
  price : Option ℚ := none
  currency : String := "USD"
  change : Option ℚ := none
  change_percent : Option ℚ := none
  volume : Option ℤ := none
  financial_metrics : FinancialMetrics
  analyst_ratings : List AnalystRating := []
  consensus_rating : Option String := none
  average_price_target : Option ℚ := none
  earnings_data : List EarningsData := []
  next_earnings_date : Option String := none
  sentiment_items : List SentimentItem := []
  sentiment_summary : SentimentSummary
  data_sources : List String := []

/-! ## CoordinatingAgent.calculate_progress (src/app/agents.py lines 210-226)

The Python body computes with floats; on the reachable inputs
(0-5 completed agents, 0-5 validation entries) every intermediate float
is exact, so the rational embedding below returns the same integers
(checked case by case against CPython). -/

/-- calculate_progress as a function of the number of completed agents and
the number of validation entries: min(100, int(completed/5*85 +
validated/5*10 + (5 if completed==5 else 0))). -/
def progressValue (completed validated : ℕ) : ℤ :=
  min 100 ⌊(completed : ℚ) / 5 * 85 + (validated : ℚ) / 5 * 10 +
    (if completed = 5 then (5 : ℚ) else 0)⌋

example : progressValue 0 0 = 0 := by norm_num [progressValue]
example : progressValue 1 1 = 19 := by norm_num [progressValue]
example : progressValue 5 5 = 100 := by norm_num [progressValue]
example : progressValue 5 4 = 98 := by norm_num [progressValue]

/-! ## GraphState (src/app/agents.py lines 34-78) and root_node (81-102)

The per-request dict, value-level.  A key set to Python None is
distinguished from an absent key only where the source distinguishes
them: company_name (set to None by the failed company agent, probed with
state.get plus a default by format_response) is Option (Option String),
outer layer = key present.  Field defaults are the values root_node
installs. -/

structure AState where
  symbol : String
  price_data : Option PriceData := none
  price_error : Option String := none
  price_status : String := "pending"
  financial_metrics : Option FinancialMetrics := none
  fundamentals_error : Option String := none
  fundamentals_status : String := "pending"
  analyst_ratings : List AnalystRating := []
  analyst_error : Option String := none
  analyst_status : String := "pending"
  earnings_data : List EarningsData := []
  sentiment_items : List SentimentItem := []
  sentiment_summary : Option SentimentSummary := none
  sentiment_error : Option String := none
  sentiment_status : String := "pending"
  company_name : Option (Option String) := none
  company_status : String := "pending"
  agents_completed : List String := []
  validation_results : List (String × Bool) := []
  overall_status : String := "initializing"
  progress_percentage : ℤ := 0
  data_sources : List String := []
  processing_errors : List String := []
  partial_data : Bool := false

/-- root_node: fresh state for a symbol with every status pending and all
coordination metadata empty. -/
def root_node (symbol : String) : AState := { symbol := symbol }

/-! ## Task Agents (src/app/agents.py lines 233-472), value-level

Each agent takes the outcome of its underlying fetch as an Except (ok =
the fetch returned, error = the exception message) and returns the
updated state.  The functions are total: no agent raises past its
boundary.  Reference aliasing of the nested lists, which the value level
cannot show, is modelled separately below for the concurrency claim; in
the sequential streaming driver the state is threaded linearly and the
value level agrees with the source. -/

/-- price_agent (lines 233-276). -/
def price_agent (st : AState) (outcome : Except String PriceData) : AState :=
  match outcome with
  | .ok pd =>
    { st with
      price_data := some pd,
      data_sources := st.data_sources ++ [pd.source.getD "unknown"],
      price_status := "success",
      agents_completed :=
        if "price" ∈ st.agents_completed then st.agents_completed
        else st.agents_completed ++ ["price"] }
  | .error e =>
    { st with
      price_error := some e,
      processing_errors := st.processing_errors ++ ["Price fetch failed: " ++ e],
      partial_data := true,
      price_status := "failed" }

/-- fundamentals_agent (lines 280-325).  On failure it stores an empty,
non-null FinancialMetrics as the payload. -/
def fundamentals_agent (st : AState) (outcome : Except String FinancialMetrics) : AState :=
  match outcome with
  | .ok fm =>
    { st with
      financial_metrics := some fm,
      data_sources := st.data_sources ++ ["yfinance_fundamentals"],
      fundamentals_status := "success",
      agents_completed :=
        if "fundamentals" ∈ st.agents_completed then st.agents_completed
        else st.agents_completed ++ ["fundamentals"] }
  | .error e =>
    { st with
      financial_metrics := some emptyMetrics,
      fundamentals_error := some e,
      processing_errors := st.processing_errors ++ ["Fundamentals fetch failed: " ++ e],
      partial_data := true,
      fundamentals_status := "failed" }

/-- analyst_agent (lines 328-378): fetches ratings and earnings together,
appending a source identifier for each non-empty list. -/
def analyst_agent (st : AState)
    (outcome : Except String (List AnalystRating × List EarningsData)) : AState :=
  match outcome with
  | .ok (ratings, earnings) =>
    { st with
      analyst_ratings := ratings,
      earnings_data := earnings,
      data_sources := st.data_sources
        ++ (if ratings.isEmpty then [] else ["finnhub_analysts"])
        ++ (if earnings.isEmpty then [] else ["yfinance_earnings"]),
      analyst_status := "success",
      agents_completed :=
        if "analyst" ∈ st.agents_completed then st.agents_completed
        else st.agents_completed ++ ["analyst"] }
  | .error e =>
    { st with
      analyst_ratings := [],
      earnings_data := [],
      analyst_error := some e,
      processing_errors := st.processing_errors ++ ["Analyst data fetch failed: " ++ e],
      partial_data := true,
      analyst_status := "failed" }

/-- The empty sentiment summary the failed sentiment agent installs
(lines 420-427). -/
def unavailableSentimentSummary : SentimentSummary :=
  { overall_score := .neutral, confidence := 0, positive_count := 0,
    negative_count := 0, neutral_count := 0,
    summary_text := "Sentiment analysis unavailable" }

/-- sentiment_agent (lines 381-437). -/
def sentiment_agent (st : AState)
    (outcome : Except String (List SentimentItem × SentimentSummary)) : AState :=
  match outcome with
  | .ok (items, summary) =>
    { st with
      sentiment_items := items,
      sentiment_summary := some summary,
      data_sources := st.data_sources ++ ["newsapi", "rss_feeds"],
      sentiment_status := "success",
      agents_completed :=
        if "sentiment" ∈ st.agents_completed then st.agents_completed
        else st.agents_completed ++ ["sentiment"] }
  | .error e =>
    { st with
      sentiment_items := [],
      sentiment_summary := some unavailableSentimentSummary,
      sentiment_error := some e,
      processing_errors := st.processing_errors ++ ["Sentiment analysis failed: " ++ e],
      partial_data := true,
      sentiment_status := "failed" }

/-- company_info_agent (lines 440-472).  Its except branch (466-472) only
sets company_name to None and the status to failed: unlike the other four
agents it appends nothing to processing_errors and leaves partial_data
untouched. -/
def company_info_agent (st : AState) (outcome : Except String String) : AState :=
  match outcome with
  | .ok name =>
    { st with
      company_name := some (some name),
      company_status := "success",
      agents_completed :=
        if "company" ∈ st.agents_completed then st.agents_completed
        else st.agents_completed ++ ["company"] }
  | .error _ =>
    { st with
      company_name := some none,
      company_status := "failed" }

/-! ## Validators (src/app/agents.py lines 117-208) -/

/-- CoordinatingAgent._validate_price_data (lines 117-131).  The Python
message for missing keys interpolates the list of missing field names;
only the boolean is load-bearing downstream. -/
def validate_price_data (st : AState) : Bool × String :=
  match st.price_data with
  | none => (false, "No price data available")
  | some pd =>
    match pd.price, pd.source with
    | some p, some _ =>
      if p ≤ 0 then (false, "Invalid price value")
      else (true, "Price data validated successfully")
    | _, _ => (false, "Missing required fields")

/-- CoordinatingAgent._validate_financial_metrics (lines 133-140): any
metrics object at all is accepted. -/
def validate_financial_metrics (st : AState) : Bool × String :=
  match st.financial_metrics with
  | none => (false, "No financial metrics available (rate limited)")
  | some _ => (true, "Financial metrics processed (may be limited due to API constraints)")

/-- CoordinatingAgent._validate_analyst_data (lines 142-160). -/
def validate_analyst_data (st : AState) : Bool × String :=
  if st.analyst_ratings.isEmpty then (false, "No analyst ratings available")
  else if st.analyst_ratings.all (fun r => !r.firm.isEmpty && !r.rating.isEmpty) then
    (true, "Validated " ++ toString st.analyst_ratings.length ++ " analyst ratings")
  else (false, "Invalid rating structure")

/-- CoordinatingAgent._validate_sentiment_data (lines 162-173). -/
def validate_sentiment_data (st : AState) : Bool × String :=
  if st.sentiment_items.isEmpty && st.sentiment_summary.isNone then
    (false, "No sentiment data available")
  else
    (true, "Validated sentiment data with " ++ toString st.sentiment_items.length ++ " articles")

/-- CoordinatingAgent._validate_company_data (lines 175-181): Python
truthiness, so an absent key, None and the empty string all fail. -/
def validate_company_data (st : AState) : Bool × String :=
  match st.company_name with
  | some (some n) =>
    if n.isEmpty then (false, "Company name not available")
    else (true, "Company validated: " ++ n)
  | _ => (false, "Company name not available")

/-- The agent_validators mapping (lines 109-115). -/
def agentValidator (agent : String) : Option (AState → Bool × String) :=
  if agent = "price" then some validate_price_data
  else if agent = "fundamentals" then some validate_financial_metrics
  else if agent = "analyst" then some validate_analyst_data
  else if agent = "sentiment" then some validate_sentiment_data
  else if agent = "company" then some validate_company_data
  else none

/-- Insertion-order-preserving dict update for validation_results. -/
def setAssoc : List (String × Bool) → String → Bool → List (String × Bool)
  | [], k, v => [(k, v)]
  | (k₁, v₁) :: rest, k, v =>
    if k₁ = k then (k, v) :: rest else (k₁, v₁) :: setAssoc rest k v

/-- CoordinatingAgent.validate_agent_result (lines 183-208): record the
validator verdict and, when invalid, append a diagnostic to the error
list without blocking. -/
def validate_agent_result (agent : String) (st : AState) : AState :=
  match agentValidator agent with
  | none => st
  | some v =>
    let r := v st
    let st₁ := { st with validation_results := setAssoc st.validation_results agent r.1 }
    if r.1 then st₁
    else { st₁ with processing_errors := st₁.processing_errors ++ [agent ++ ": " ++ r.2] }

/-- calculate_progress read off the state (lines 210-226). -/
def calculate_progress (st : AState) : ℤ :=
  progressValue st.agents_completed.length st.validation_results.length

/-! ## calculate_consensus_rating (src/app/agents.py lines 476-496) -/

/-- The keyword a rating text is counted under: BUY, then HOLD, then SELL
as substrings of the uppercased text, first match wins (lines 483-490). -/
def ratingKeyword (text : String) : Option String :=
  let up := pyUpper text.data
  if containsSub "BUY".data up then some "BUY"
  else if containsSub "HOLD".data up then some "HOLD"
  else if containsSub "SELL".data up then some "SELL"
  else none

/-- Increment a key in an insertion-ordered counts dict. -/
def bumpCount : List (String × ℕ) → String → List (String × ℕ)
  | [], k => [(k, 1)]
  | (k₁, n) :: rest, k =>
    if k₁ = k then (k₁, n + 1) :: rest else (k₁, n) :: bumpCount rest k

/-- The rating_counts dict in first-seen key order. -/
def ratingCounts (ratings : List AnalystRating) : List (String × ℕ) :=
  ratings.foldl (fun acc r =>
    match ratingKeyword r.rating with
    | some k => bumpCount acc k
    | none => acc) []

/-- One comparison step of Python max with a key function: a later entry
replaces the current best only when strictly greater. -/
def pyMaxStep (best q : String × ℕ) : String × ℕ :=
  if best.2 < q.2 then q else best

/-- Python max(counts, key=counts.get): the first key, in insertion
order, whose count no later key strictly exceeds. -/
def pyMaxByVal : List (String × ℕ) → Option String
  | [] => none
  | p :: rest => some ((rest.foldl pyMaxStep p).1)

/-- calculate_consensus_rating: None on an empty ratings list, the
majority keyword when any keyword matched, and the literal "HOLD" when
ratings exist but none contains a keyword. -/
def calculate_consensus_rating (ratings : List AnalystRating) : Option String :=
  if ratings.isEmpty then none
  else
    match pyMaxByVal (ratingCounts ratings) with
    | some k => some k
    | none => some "HOLD"

example : calculate_consensus_rating [] = none := by decide
example : calculate_consensus_rating
    [⟨"A", "Strong Buy", none, none⟩, ⟨"B", "buy", none, none⟩, ⟨"C", "Sell", none, none⟩]
    = some "BUY" := by decide
example : calculate_consensus_rating [⟨"A", "Outperform", none, none⟩] = some "HOLD" := by decide
example : calculate_consensus_rating
    [⟨"A", "Buy", none, none⟩, ⟨"B", "Sell", none, none⟩] = some "BUY" := by decide

/-! ## format_response (src/app/agents.py lines 599-699) -/

/-- The two exceptions format_response can raise: its own StockDataError
when every data kind is absent (line 617), and the pydantic validation
error raised by the StockResponse constructor when the state has no
financial_metrics key at all, so that the [] default of line 645 reaches
the required FinancialMetrics field. -/
inductive FmtError
  | stockDataError (msg : String)
  | validationError
deriving DecidableEq, Repr

/-- The neutral summary format_response substitutes for a missing
sentiment summary (lines 652-660). -/
def noSentimentDataSummary : SentimentSummary :=
  { overall_score := .neutral, confidence := 0, positive_count := 0,
    negative_count := 0, neutral_count := 0,
    summary_text := "No sentiment data available" }

/-- format_response: raise the data error when price dict, financial
metrics, analyst ratings, sentiment items and company name are all
absent; otherwise build the response, degrading each missing field.  The
constructed StockResponse never receives a consensus_rating: the source
omits that argument (lines 665-679), so the schema default None stands
and calculate_consensus_rating is never called. -/
def format_response (symbol : String) (st : AState) : Except FmtError StockResponse :=
  let has_fundamentals := st.financial_metrics.isSome
  let has_analyst := !st.analyst_ratings.isEmpty
  let has_sentiment := !st.sentiment_items.isEmpty
  let has_company := match st.company_name with
    | some (some _) => true
    | _ => false
  if !st.price_data.isSome && !has_fundamentals && !has_analyst
      && !has_sentiment && !has_company then
    .error (.stockDataError "No data available - all agents failed")
  else
    let priceFields : Option ℚ × String × Option ℚ × Option ℚ × Option ℤ :=
      match st.price_data with
      | none => (none, "USD", none, none, none)
      | some pd =>
        match pd.price with
        | none => (none, "USD", none, none, none)
        | some p => (some p, pd.currency.getD "USD", pd.change, pd.change_percent, pd.volume)
    match st.financial_metrics with
    | none => .error .validationError
    | some fm =>
      .ok { symbol := symbol,
            company_name :=
              match st.company_name with
              | none => some (symbol ++ " Corporation")
              | some v => v,
            price := priceFields.1,
            currency := priceFields.2.1,
            change := priceFields.2.2.1,
            change_percent := priceFields.2.2.2.1,
            volume := priceFields.2.2.2.2,
            financial_metrics := fm,
            analyst_ratings := st.analyst_ratings,
            consensus_rating := none,
            average_price_target := none,
            earnings_data := st.earnings_data,
            next_earnings_date := none,
            sentiment_items := st.sentiment_items,
            sentiment_summary := st.sentiment_summary.getD noSentimentDataSummary,
            data_sources := st.data_sources.dedup }

/-! ## stream_coordinated_analysis (src/app/agents.py lines 499-596)

The sequential streaming driver: validate the symbol first, then run the
five agents one after another, validating after each, and finally format
the response.  The outcome of each underlying fetch is an input.  An
invalid symbol raises InvalidSymbolError before any agent runs, embedded
as the .error branch. -/

/-- The five fetch outcomes a full run consumes. -/
structure AgentOutcomes where
  price : Except String PriceData
  fundamentals : Except String FinancialMetrics
  analyst : Except String (List AnalystRating × List EarningsData)
  sentiment : Except String (List SentimentItem × SentimentSummary)
  company : Except String String

/-- The agent loop of the streaming driver (lines 523-546): agents run in
the fixed order price, fundamentals, analyst, sentiment, company, each
followed by its validation step. -/
def runSeqAgents (st : AState) (o : AgentOutcomes) : AState :=
  let st₁ := validate_agent_result "price" (price_agent st o.price)
  let st₂ := validate_agent_result "fundamentals" (fundamentals_agent st₁ o.fundamentals)
  let st₃ := validate_agent_result "analyst" (analyst_agent st₂ o.analyst)
  let st₄ := validate_agent_result "sentiment" (sentiment_agent st₃ o.sentiment)
  validate_agent_result "company" (company_info_agent st₄ o.company)

/-- stream_coordinated_analysis, collapsed to its data flow: symbol
validation up front (lines 502-504), then the sequential agent loop from
the root state, then format_response; the terminal event carries either
the response or the formatting error. -/
def stream_coordinated_analysis (symbol : String) (o : AgentOutcomes) :
    Except String (AState × Except FmtError StockResponse) :=
  match validate_stock_symbol symbol with
  | .error e => .error e
  | .ok _ =>
    let st := runSeqAgents (root_node symbol) o
    .ok (st, format_response symbol st)

/-! ## The Coordinator merge (src/app/agents.py lines 732-758)

The loop merges each agent result dict into the accumulator key by key:
data_sources becomes list(set(existing + new)) - embedded as dedup of the
concatenation, since the CPython set leaves the order unspecified and
only the set of entries is specified; processing_errors is concatenated;
any other key overwrites only when the incoming value is not None.  The
incoming dict is an association list of present keys (value none = the
key is present holding Python None); the two special keys live in their
own fields. -/

/-- Dict lookup in an agent result: some none = key present holding None,
some (some v) = key present non-null, none = key absent. -/
def lookupAssoc {α : Type} (l : List (String × Option α)) (k : String) : Option (Option α) :=
  (l.find? (fun p => p.1 = k)).map Prod.snd

/-- One agent result dict as the merge loop reads it. -/
structure AgentDelta (α : Type) where
  data_sources : List String := []
  processing_errors : List String := []
  fields : List (String × Option α) := []

/-- The merge accumulator (final_state). -/
structure MergeState (α : Type) where
  data_sources : List String := []
  processing_errors : List String := []
  fields : String → Option α := fun _ => none

/-- One iteration of the merge loop of orchestrating_agent: set-union the
data sources, concatenate the error lists, and overwrite any other key
only when the incoming value is non-null. -/
def merge_agent_result {α : Type} (acc : MergeState α) (r : AgentDelta α) : MergeState α :=
  { data_sources := (acc.data_sources ++ r.data_sources).dedup,
    processing_errors := acc.processing_errors ++ r.processing_errors,
    fields := fun k =>
      match lookupAssoc r.fields k with
      | some (some v) => some v
      | _ => acc.fields k }

/-! ## Reference-level model of the concurrent fan-out
(src/app/agents.py lines 709-728 with price_agent lines 233-263)

orchestrating_agent invokes all five agent coroutines on the very same
state dict (lines 716-722).  Each agent starts with state.copy, a shallow
copy that re-binds the same nested list objects.  The heap maps addresses
to string lists; the dict fields hold addresses of its mutable list
members.  price_agent defensively copies data_sources before appending
(line 245: a fresh list object) but appends to agents_completed in place
(lines 256-259). -/

/-- Addressed store of string lists. -/
structure Heap where
  cells : ℕ → List String
  next : ℕ

/-- Write a list into an existing cell (Python list.append mutation). -/
def heapWrite (h : Heap) (a : ℕ) (v : List String) : Heap :=
  { cells := fun x => if x = a then v else h.cells x, next := h.next }

/-- Allocate a fresh cell (Python building a new list object). -/
def heapAlloc (h : Heap) (v : List String) : Heap × ℕ :=
  ({ cells := fun x => if x = h.next then v else h.cells x, next := h.next + 1 }, h.next)

/-- The state dict with its mutable list members as heap addresses. -/
structure StateDict where
  symbol : String
  price_status : String
  price_source : Option String
  agents_completed : ℕ
  validation_results : ℕ
  data_sources : ℕ
  processing_errors : ℕ
deriving DecidableEq, Repr

/-- Python dict.copy: a new top-level dict whose entries re-bind the same
nested objects, so every address is carried over unchanged. -/
def dict_copy (d : StateDict) : StateDict := d

/-- price_agent success path at reference level: shallow-copy the state,
build a fresh data_sources list from a copy, append "price" to the
agents_completed list in place at its existing address. -/
def price_agent_heap (h : Heap) (st : StateDict) (fetched : PriceData) : Heap × StateDict :=
  let result := dict_copy st
  let alloc := heapAlloc h (h.cells st.data_sources ++ [fetched.source.getD "unknown"])
  let h₁ := alloc.1
  let comp := h₁.cells result.agents_completed
  let h₂ := heapWrite h₁ result.agents_completed
    (if "price" ∈ comp then comp else comp ++ ["price"])
  (h₂, { result with price_status := "success", price_source := fetched.source,
                     data_sources := alloc.2 })

/-- The per-task input states of lines 716-722: every one of the five
concurrently scheduled agents is handed the same state dict. -/
def orchestrating_agent_task_states (st : StateDict) : List StateDict :=
  [st, st, st, st, st]

/-! ## Sentiment aggregation (src/app/services/sentiment.py lines 459-634)

The pipeline from fetched articles to the SentimentSummary.  The two
source fetches and the per-article scoring are provider calls and enter
as inputs: news/rss are none when the fetch raised, and the score oracle
returns none for an article the analysis loop skipped (lines 569-574).
The per-article polarity is the mean the source computes from whichever
scorers succeeded. -/

/-- One fetched article as the aggregation reads it. -/
structure Article where
  title : String := ""
  source_name : String := "Unknown"
  description : String := ""
  publishedAt : Option String := none
  url : Option String := none

/-- Regex class backslash-w of the dedup key (ASCII). -/
def pyIsWordChar (c : Char) : Bool :=
  ('A' ≤ c && c ≤ 'Z') || ('a' ≤ c && c ≤ 'z') || ('0' ≤ c && c ≤ '9') || c = '_'

/-- Python str.lower on an ASCII character. -/
def pyLowerChar (c : Char) : Char :=
  if 'A' ≤ c && c ≤ 'Z' then Char.ofNat (c.toNat + 32) else c

/-- The dedup key of lines 560-561: strip everything but word characters
and whitespace, lowercase, truncate to 50 characters. -/
def titleKey (t : String) : List Char :=
  ((t.data.filter (fun c => pyIsWordChar c || pyIsSpace c)).map pyLowerChar).take 50

/-- Keep the first article per title key (lines 557-564). -/
def dedupByTitleKey : List Article → List (List Char) → List Article
  | [], _ => []
  | a :: rest, seen =>
    if titleKey a.title ∈ seen then dedupByTitleKey rest seen
    else a :: dedupByTitleKey rest (titleKey a.title :: seen)

/-- sentiment_score_to_enum (lines 459-470) with the fixed thresholds
0.5 and 0.15. -/
def sentiment_score_to_enum (score : ℚ) : SentimentScore :=
  if 1/2 ≤ score then .very_positive
  else if 3/20 ≤ score then .positive
  else if score ≤ -(1/2) then .very_negative
  else if score ≤ -(3/20) then .negative
  else .neutral

/-- The SentimentItem built for one scored article (lines 518-525). -/
def mkSentimentItem (a : Article) (polarity : ℚ) : SentimentItem :=
  { source := a.source_name, title := a.title, polarity := polarity,
    sentiment_score := sentiment_score_to_enum polarity,
    published_at := a.publishedAt, url := a.url }

/-- Sample variance with the n-1 denominator underlying statistics.stdev. -/
def pySampleVariance (ps : List ℚ) : ℚ :=
  if ps.length ≤ 1 then 0
  else (ps.map (fun p => (p - ps.sum / ps.length) ^ 2)).sum / (ps.length - 1)

/-- Corpus confidence (lines 594-597): max(0, 1 - stdev/2), stdev 0 when
fewer than two polarities.  Real-valued because of the square root. -/
noncomputable def sentimentConfidence (ps : List ℚ) : ℝ :=
  max 0 (1 - (if 1 < ps.length then Real.sqrt (pySampleVariance ps) else 0) / 2)

/-- The summary returned when no articles were fetched (lines 546-554). -/
def noArticlesSummary : SentimentSummary :=
  { overall_score := .neutral, confidence := 0, positive_count := 0,
    negative_count := 0, neutral_count := 0,
    summary_text := "No sentiment data available" }

/-- The summary returned when every article failed analysis (576-584). -/
def failedAnalysisSummary : SentimentSummary :=
  { overall_score := .neutral, confidence := 0, positive_count := 0,
    negative_count := 0, neutral_count := 0,
    summary_text := "Failed to analyze sentiment" }

/-- The deterministic template text (lines 607-613). -/
def basicSummaryText (n pos neg neu : ℕ) : String :=
  "Based on " ++ toString n ++ " articles: " ++
  (if neg < pos then
    "Generally positive sentiment (" ++ toString pos ++ " positive, "
      ++ toString neg ++ " negative)"
  else if pos < neg then
    "Generally negative sentiment (" ++ toString neg ++ " negative, "
      ++ toString pos ++ " positive)"
  else
    "Mixed sentiment (" ++ toString pos ++ " positive, " ++ toString neg
      ++ " negative, " ++ toString neu ++ " neutral)")

/-- fetch_comprehensive_sentiment (lines 528-634): concatenate the two
article sources, return the fixed neutral summary when nothing was
fetched, deduplicate by title key, cap, score each article (skipping
failures), return the fixed failure summary when nothing was scored, and
otherwise count positives above 0.15, negatives below -0.15, neutrals as
the remainder.  The ai argument is the AI synopsis when the OpenAI call
is enabled and succeeded; the source only uses it with more than three
items. -/
noncomputable def fetch_comprehensive_sentiment (news rss : Option (List Article))
    (score : Article → Option ℚ) (maxArticles : ℕ) (ai : Option String) :
    List SentimentItem × SentimentSummary :=
  let allArticles := news.getD [] ++ rss.getD []
  if allArticles.isEmpty then ([], noArticlesSummary)
  else
    let uniq := dedupByTitleKey allArticles []
    let items := (uniq.take maxArticles).filterMap
      (fun a => (score a).map (mkSentimentItem a))
    if items.isEmpty then ([], failedAnalysisSummary)
    else
      let ps := items.map SentimentItem.polarity
      let pos := ps.countP (fun p => decide (3/20 < p))
      let neg := ps.countP (fun p => decide (p < -(3/20)))
      let neu := ps.length - pos - neg
      let text := match ai with
        | some t =>
          if 3 < items.length then t else basicSummaryText items.length pos neg neu
        | none => basicSummaryText items.length pos neg neu
      (items,
       { overall_score := sentiment_score_to_enum (ps.sum / ps.length),
         confidence := sentimentConfidence ps,
         positive_count := pos, negative_count := neg, neutral_count := neu,
         summary_text := text })

/-! ## get_company_name (src/app/services/market_data.py lines 486-514) -/

/-- What the yfinance info lookup produced: an exception, a falsy or
non-dict info, or a dict with the two optional name keys. -/
inductive CompanyInfoOutcome
  | raised (msg : String)
  | emptyInfo
  | info (longName shortName : Option String)

/-- Python a or b over optional strings: the empty string is falsy. -/
def pyOrStr (a b : Option String) : Option String :=
  match a with
  | some s => if s.isEmpty then b else some s
  | none => b

/-- get_company_name: re-raise InvalidSymbolError from the up-front
validation; otherwise return the first truthy of longName and shortName,
falling back to the synthetic name on any provider failure or missing
name.  The fallback interpolates the symbol as given. -/
def get_company_name (symbol : String) (o : CompanyInfoOutcome) : Except String String :=
  match validate_stock_symbol symbol with
  | .error e => .error e
  | .ok _ =>
    match o with
    | .info l s =>
      match pyOrStr l s with
      | some n => if n.isEmpty then .ok (symbol ++ " Corporation") else .ok n
      | none => .ok (symbol ++ " Corporation")
    | _ => .ok (symbol ++ " Corporation")

/-! ## fetch_fundamentals_yf (src/app/services/market_data.py lines 190-330)

The function gathers up to three partial dicts (52-week range from
history, key ratios from info, market cap from fast_info when info gave
nothing), merges them, filters out None and zero values, and builds a
FinancialMetrics; its outer except returns an empty FinancialMetrics on
any exception, so it never raises over provider outcomes.  The provider
outcomes enter as an input. -/

/-- The seven metrics strategy 2 extracts from ticker.info. -/
structure YfInfoData where
  market_cap : Option ℚ := none
  pe_ratio : Option ℚ := none
  price_to_book : Option ℚ := none
  dividend_yield : Option ℚ := none
  beta : Option ℚ := none
  revenue_ttm : Option ℚ := none
  profit_margin : Option ℚ := none

/-- Provider outcome for one fundamentals fetch: an exception escaping
the inner handlers, or the three optional partial results (hist = 52-week
high and low; info = the ratio dict, present even when all its values are
None; fast = the fast_info market cap tried only when info gave no
dict). -/
inductive FundamentalsOutcome
  | raised (msg : String)
  | collected (hist : Option (ℚ × ℚ)) (infoData : Option YfInfoData) (fast : Option ℚ)

/-- The v is not None and v != 0 filter of lines 302-303. -/
def keepNonzero (v : Option ℚ) : Option ℚ :=
  match v with
  | some x => if x = 0 then none else some x
  | none => none

/-- fetch_fundamentals_yf: total over provider outcomes, empty metrics on
an exception, otherwise the merged and zero-filtered collection. -/
def fetch_fundamentals_yf (o : FundamentalsOutcome) : FinancialMetrics :=
  match o with
  | .raised _ => emptyMetrics
  | .collected hist infoData fast =>
    let withHist : FinancialMetrics :=
      match hist with
      | some hl => { fifty_two_week_high := keepNonzero (some hl.1),
                     fifty_two_week_low := keepNonzero (some hl.2) }
      | none => {}
    let infoEff : Option YfInfoData :=
      match infoData with
      | some i => some i
      | none =>
        match fast with
        | some mc => some { market_cap := some mc }
        | none => none
    match infoEff with
    | some i =>
      { withHist with
        market_cap := keepNonzero i.market_cap,
        pe_ratio := keepNonzero i.pe_ratio,
        price_to_book := keepNonzero i.price_to_book,
        dividend_yield := keepNonzero i.dividend_yield,
        beta := keepNonzero i.beta,
        revenue_ttm := keepNonzero i.revenue_ttm,
        profit_margin := keepNonzero i.profit_margin }
    | none => withHist

/-- fetch_financial_metrics (lines 524-527): the agent-facing wrapper
validates the symbol first, which raises InvalidSymbolError for a
malformed symbol, and only then runs the never-raising fetch. -/
def fetch_financial_metrics (symbol : String) (o : FundamentalsOutcome) :
    Except String FinancialMetrics :=
  match validate_stock_symbol symbol with
  | .error e => .error e
  | .ok _ => .ok (fetch_fundamentals_yf o)

/-! ## Theorems -/

section Claims

/-- C4: the Coordinator merge, key by key: data_sources becomes the
set-union of existing and new, with no duplicate entry and membership
independent of order (so merging the same source twice yields one entry
and the result is idempotent and order-independent as a set);
processing_errors is list concatenation; every other key is overwritten
exactly when the incoming dict holds a non-null value there, so merging
a non-null value and then a null at the same key keeps the value. -/
theorem C4_theorem {α : Type} (acc : MergeState α) (r : AgentDelta α) :
    (merge_agent_result acc r).processing_errors
      = acc.processing_errors ++ r.processing_errors ∧
    (merge_agent_result acc r).data_sources.Nodup ∧
    (∀ s, s ∈ (merge_agent_result acc r).data_sources
      ↔ s ∈ acc.data_sources ∨ s ∈ r.data_sources) ∧
    (merge_agent_result acc r).data_sources.toFinset
      = acc.data_sources.toFinset ∪ r.data_sources.toFinset ∧
    (∀ k v, lookupAssoc r.fields k = some (some v)
      → (merge_agent_result acc r).fields k = some v) ∧
    (∀ k, lookupAssoc r.fields k = some none
      → (merge_agent_result acc r).fields k = acc.fields k) ∧
    (∀ k, lookupAssoc r.fields k = none
      → (merge_agent_result acc r).fields k = acc.fields k) := by
  refine ⟨rfl, List.nodup_dedup _, ?_, ?_, ?_, ?_, ?_⟩
  · intro s
    simp [merge_agent_result, List.mem_dedup, List.mem_append]
  · ext s
    simp [merge_agent_result, List.mem_toFinset, List.mem_dedup, List.mem_append]
  · intro k v h
    simp only [merge_agent_result, h]
  · intro k h
    simp only [merge_agent_result, h]
  · intro k h
    simp only [merge_agent_result, h]

/-- Exact integer form of the progress formula. -/
theorem progressValue_eq (c v : ℕ) :
    progressValue c v
      = min 100 ((17 * c + 2 * v + if c = 5 then 5 else 0 : ℤ)) := by
  unfold progressValue
  congr 1
  have h : (c : ℚ) / 5 * 85 + (v : ℚ) / 5 * 10 + (if c = 5 then (5 : ℚ) else 0)
      = ((17 * c + 2 * v + if c = 5 then 5 else 0 : ℤ) : ℚ) := by
    split_ifs <;> push_cast <;> ring
  rw [h, Int.floor_intCast]

/-- C5: for 0-5 completed agents and 0-5 validated agents, the overall
progress equals min(100, 85 completed/5 + 10 validated/5 + (5 when all
five completed)); it is monotonically non-decreasing in both counts and
equals exactly 100 when all five agents have completed and been
validated. -/
theorem C5_theorem (c v : ℕ) (_hc : c ≤ 5) (_hv : v ≤ 5) :
    ((progressValue c v : ℤ) : ℚ)
      = min 100 (85 * (c : ℚ) / 5 + 10 * (v : ℚ) / 5 + (if c = 5 then 5 else 0)) ∧
    (∀ c₂ v₂ : ℕ, c₂ ≤ 5 → v₂ ≤ 5 → c ≤ c₂ → v ≤ v₂ →
      progressValue c v ≤ progressValue c₂ v₂) ∧
    progressValue 5 5 = 100 := by
  refine ⟨?_, ?_, by norm_num [progressValue]⟩
  · rw [progressValue_eq]
    push_cast
    split_ifs <;> push_cast <;> [skip; skip] <;>
      rw [show (100 : ℚ) = ((100 : ℤ) : ℚ) from by norm_num] <;> norm_num <;>
      ring_nf
  · intro c₂ v₂ hc₂ hv₂ hcc hvv
    rw [progressValue_eq, progressValue_eq]
    apply min_le_min le_rfl
    split_ifs <;> omega

/-- Witness for C5 at completed = 3, validated = 2. -/
theorem C5_theorem_witness :
    ((progressValue 3 2 : ℤ) : ℚ)
      = min 100 (85 * (3 : ℚ) / 5 + 10 * (2 : ℚ) / 5 + (if (3 : ℕ) = 5 then 5 else 0)) ∧
    progressValue 5 5 = 100 := by
  have h := C5_theorem 3 2 (by norm_num) (by norm_num)
  exact ⟨h.1, h.2.2⟩

/-- C9: for every symbol that passes format validation, get_company_name
returns a string and never raises; on a provider exception or a missing
or falsy info it returns the synthetic fallback, the symbol followed by
the word Corporation. -/
theorem C9_theorem (symbol : String) (o : CompanyInfoOutcome)
    (h : (validate_stock_symbol symbol).isOk = true) :
    (∃ n : String, get_company_name symbol o = .ok n) ∧
    (∀ m, get_company_name symbol (.raised m) = .ok (symbol ++ " Corporation")) ∧
    get_company_name symbol .emptyInfo = .ok (symbol ++ " Corporation") := by
  unfold get_company_name
  cases hv : validate_stock_symbol symbol with
  | error e => rw [hv] at h; simp [Except.isOk, Except.toBool] at h
  | ok b =>
    refine ⟨?_, fun m => rfl, rfl⟩
    cases o with
    | raised m => exact ⟨symbol ++ " Corporation", rfl⟩
    | emptyInfo => exact ⟨symbol ++ " Corporation", rfl⟩
    | info l s =>
      cases hp : pyOrStr l s with
      | none => exact ⟨symbol ++ " Corporation", by simp [hp]⟩
      | some n =>
        by_cases hn : n.isEmpty
        · exact ⟨symbol ++ " Corporation", by simp [hp, hn]⟩
        · exact ⟨n, by simp [hp, hn]⟩

/-- Witness for C9 at the symbol AAPL and a provider exception. -/
theorem C9_theorem_witness :
    get_company_name "AAPL" (.raised "HTTP 429") = .ok ("AAPL" ++ " Corporation") ∧
    (∃ n : String, get_company_name "AAPL" (.raised "HTTP 429") = .ok n) := by
  have h := C9_theorem "AAPL" (.raised "HTTP 429") (by decide)
  exact ⟨h.2.1 "HTTP 429", h.1⟩

end Claims

section Claims2

/-- Positives above 0.15 and negatives below -0.15 are disjoint, so the
two counts never exceed the number of polarities. -/
theorem countP_pos_neg_le (ps : List ℚ) :
    ps.countP (fun p => decide (3/20 < p)) + ps.countP (fun p => decide (p < -(3/20)))
      ≤ ps.length := by
  induction ps with
  | nil => simp
  | cons p t ih =>
    simp only [List.countP_cons, List.length_cons]
    by_cases h1 : (3/20 : ℚ) < p
    · by_cases h2 : p < -(3/20)
      · exfalso; linarith
      · simp only [h1, h2, decide_True, decide_False, if_true, if_false,
          Bool.false_eq_true]; omega
    · by_cases h2 : p < -(3/20) <;>
        simp only [h1, h2, decide_True, decide_False, if_true, if_false,
          Bool.false_eq_true] <;> omega

/-- C7: for every pair of fetched article lists, scoring oracle, article
cap and synopsis outcome, the produced SentimentSummary satisfies
positive_count + negative_count + neutral_count = number of scored
items; for the empty article set all three counts are 0, the overall
label is neutral and the confidence is 0. -/
theorem C7_theorem (news rss : Option (List Article)) (score : Article → Option ℚ)
    (maxArticles : ℕ) (ai : Option String) :
    ((fetch_comprehensive_sentiment news rss score maxArticles ai).2.positive_count
      + (fetch_comprehensive_sentiment news rss score maxArticles ai).2.negative_count
      + (fetch_comprehensive_sentiment news rss score maxArticles ai).2.neutral_count
      = (fetch_comprehensive_sentiment news rss score maxArticles ai).1.length) ∧
    fetch_comprehensive_sentiment (some []) (some []) score maxArticles ai
      = ([], noArticlesSummary) ∧
    noArticlesSummary.positive_count = 0 ∧
    noArticlesSummary.negative_count = 0 ∧
    noArticlesSummary.neutral_count = 0 ∧
    noArticlesSummary.overall_score = .neutral ∧
    noArticlesSummary.confidence = 0 := by
  refine ⟨?_, rfl, rfl, rfl, rfl, rfl, rfl⟩
  unfold fetch_comprehensive_sentiment
  by_cases hA : (news.getD [] ++ rss.getD []).isEmpty
  · simp [hA, noArticlesSummary]
  · simp only [hA, if_false, Bool.false_eq_true]
    set items := ((dedupByTitleKey (news.getD [] ++ rss.getD []) []).take maxArticles).filterMap
      (fun a => (score a).map (mkSentimentItem a)) with hitems
    by_cases hI : items.isEmpty
    · simp [hI, failedAnalysisSummary]
    · simp only [hI, if_false, Bool.false_eq_true]
      have hle := countP_pos_neg_le (items.map SentimentItem.polarity)
      simp only [List.length_map] at hle
      simp only [List.length_map]
      omega

end Claims2

section Claims3

/-- C1 counterexample: the claim that validation accepts exactly 1-5
uppercase-letter symbols with optional interior dots and raises on every
other string, lowercase included, fails on the code in both directions.
The lowercase strings aapl and go.gl are accepted, because the validator
strips and uppercases before checking; and ABCD.E, which is five
uppercase letters with one interior, non-leading, non-trailing,
non-consecutive dot, is rejected, because the 5-character limit counts
the dot. -/
theorem C1_counterexample :
    validate_stock_symbol "aapl" = .ok true ∧
    "aapl".data.all isUpperAlpha = false ∧
    validate_stock_symbol "go.gl" = .ok true ∧
    (validate_stock_symbol "ABCD.E").isOk = false ∧
    "ABCD.E".data.all isUpperOrDot = true ∧
    ("ABCD.E".data.filter isUpperAlpha).length = 5 ∧
    "ABCD.E".data.head? ≠ some '.' ∧
    "ABCD.E".data.getLast? ≠ some '.' ∧
    hasConsecutiveDots "ABCD.E".data = false := by
  exact ⟨rfl, by decide, rfl, by decide, by decide, by decide, by decide,
    by decide, by decide⟩

/-- C1 (amended): validation first strips whitespace and uppercases;
it then accepts exactly the strings whose normalized form is 1-5
characters drawn from uppercase letters and dots with no leading,
trailing or consecutive dot (so the dot counts toward the 5-character
limit and a lowercase symbol is accepted whenever its uppercase form is
valid), raising InvalidSymbolError for every other string; and the
streaming entrypoint validates before any agent runs, so a rejected
symbol produces an error independent of every agent outcome. -/
theorem C1_theorem (s : String) (o₁ o₂ : AgentOutcomes) :
    ((validate_stock_symbol s).isOk = true ↔ normalizedSymbolValid s) ∧
    ((validate_stock_symbol s).isOk = false →
      stream_coordinated_analysis s o₁ = stream_coordinated_analysis s o₂ ∧
      ∃ e, stream_coordinated_analysis s o₁ = .error e) := by
  constructor
  · constructor
    · intro h
      simp only [validate_stock_symbol] at h
      split_ifs at h with h1 h2 h3 h4 h5 <;>
        try simp [Except.isOk, Except.toBool] at h
      simp only [Bool.or_eq_true, decide_eq_true_eq, not_or, not_lt] at h2 h4
      unfold normalizedSymbolValid
      exact ⟨h1, h2.1, h2.2, h3, h4.1, h4.2, by simpa using h5⟩
    · intro hp
      obtain ⟨hne, hlen1, hlen5, hall, hhead, hlast, hdots⟩ := hp
      simp only [validate_stock_symbol]
      rw [if_neg hne]
      rw [if_neg (show ¬ ((decide ((pyUpper (pyStrip s.data)).length < 1)
          || decide (5 < (pyUpper (pyStrip s.data)).length)) = true) from by
        simp only [Bool.or_eq_true, decide_eq_true_eq, not_or, not_lt]
        exact ⟨hlen1, hlen5⟩)]
      rw [if_neg (not_not_intro hall)]
      rw [if_neg (show ¬ ((decide ((pyUpper (pyStrip s.data)).head? = some '.')
          || decide ((pyUpper (pyStrip s.data)).getLast? = some '.')) = true) from by
        simp only [Bool.or_eq_true, decide_eq_true_eq, not_or]
        exact ⟨hhead, hlast⟩)]
      rw [if_neg (show ¬ (hasConsecutiveDots (pyUpper (pyStrip s.data)) = true) from by
        simp [hdots])]
      rfl
  · intro h
    unfold stream_coordinated_analysis
    cases hv : validate_stock_symbol s with
    | error e => exact ⟨rfl, e, rfl⟩
    | ok b => rw [hv] at h; simp [Except.isOk, Except.toBool] at h

end Claims3

section Claims4

/-- C6 counterexample: the claim that every Task Agent, the company-name
agent included, appends the exception message to processing_errors, sets
its payload to an explicit empty value and sets partial_data on failure,
fails on the code twice.  The failed company agent leaves
processing_errors and partial_data untouched, and the failed price agent
leaves the price_data key absent instead of installing an empty
payload. -/
theorem C6_counterexample :
    (company_info_agent (root_node "AAPL") (.error "rate limited")).processing_errors = [] ∧
    (company_info_agent (root_node "AAPL") (.error "rate limited")).partial_data = false ∧
    (company_info_agent (root_node "AAPL") (.error "rate limited")).company_status = "failed" ∧
    (price_agent (root_node "AAPL") (.error "timeout")).price_data = none := by
  exact ⟨rfl, rfl, rfl, rfl⟩

/-- C6 (amended): every agent returns a state and never raises past its
boundary.  On an exception of the underlying fetch, the price,
fundamentals, analyst and sentiment agents append their error message to
processing_errors, set partial_data and mark their status failed, with
the fundamentals agent installing an empty FinancialMetrics, the analyst
agent empty rating and earnings lists and the sentiment agent an empty
item list plus the unavailable summary, while the price agent leaves the
price_data key absent; the company agent only sets company_name to null
and its status to failed, leaving processing_errors and partial_data
unchanged. -/
theorem C6_theorem (st : AState) (e : String) :
    ((price_agent st (.error e)).processing_errors
        = st.processing_errors ++ ["Price fetch failed: " ++ e] ∧
      (price_agent st (.error e)).partial_data = true ∧
      (price_agent st (.error e)).price_status = "failed" ∧
      (price_agent st (.error e)).price_error = some e ∧
      (price_agent st (.error e)).price_data = st.price_data) ∧
    ((fundamentals_agent st (.error e)).processing_errors
        = st.processing_errors ++ ["Fundamentals fetch failed: " ++ e] ∧
      (fundamentals_agent st (.error e)).partial_data = true ∧
      (fundamentals_agent st (.error e)).fundamentals_status = "failed" ∧
      (fundamentals_agent st (.error e)).fundamentals_error = some e ∧
      (fundamentals_agent st (.error e)).financial_metrics = some emptyMetrics) ∧
    ((analyst_agent st (.error e)).processing_errors
        = st.processing_errors ++ ["Analyst data fetch failed: " ++ e] ∧
      (analyst_agent st (.error e)).partial_data = true ∧
      (analyst_agent st (.error e)).analyst_status = "failed" ∧
      (analyst_agent st (.error e)).analyst_ratings = [] ∧
      (analyst_agent st (.error e)).earnings_data = []) ∧
    ((sentiment_agent st (.error e)).processing_errors
        = st.processing_errors ++ ["Sentiment analysis failed: " ++ e] ∧
      (sentiment_agent st (.error e)).partial_data = true ∧
      (sentiment_agent st (.error e)).sentiment_status = "failed" ∧
      (sentiment_agent st (.error e)).sentiment_items = [] ∧
      (sentiment_agent st (.error e)).sentiment_summary = some unavailableSentimentSummary) ∧
    ((company_info_agent st (.error e)).company_name = some none ∧
      (company_info_agent st (.error e)).company_status = "failed" ∧
      (company_info_agent st (.error e)).processing_errors = st.processing_errors ∧
      (company_info_agent st (.error e)).partial_data = st.partial_data) := by
  exact ⟨⟨rfl, rfl, rfl, rfl, rfl⟩, ⟨rfl, rfl, rfl, rfl, rfl⟩,
    ⟨rfl, rfl, rfl, rfl, rfl⟩, ⟨rfl, rfl, rfl, rfl, rfl⟩, ⟨rfl, rfl, rfl, rfl⟩⟩

end Claims4

section Claims5

/-- A concrete heap for the aliasing counterexample: the four list cells
of the initial state are empty, as root_node leaves them. -/
def heap0 : Heap := { cells := fun _ => [], next := 10 }

/-- The state dict handed to the five concurrent tasks, holding the heap
addresses of its mutable list members. -/
def stateDict0 : StateDict :=
  { symbol := "AAPL", price_status := "pending", price_source := none,
    agents_completed := 0, validation_results := 1,
    data_sources := 2, processing_errors := 3 }

/-- The run of the price agent on the shared dict. -/
def priceRun0 : Heap × StateDict :=
  price_agent_heap heap0 stateDict0 { price := some 100, source := some "alpha_vantage" }

/-- C3 counterexample: in the concurrent mode the five tasks are invoked
on the same state dict, not on independent copies, and the
agents_completed list is shared by reference across them: the state the
price agent returns still holds the address of the input dict's
agents_completed list, the sibling agents receive that same dict, and
the price agent has mutated the list at that shared address in place
(from empty to containing price). -/
theorem C3_counterexample :
    (orchestrating_agent_task_states stateDict0).get? 0 = some stateDict0 ∧
    (orchestrating_agent_task_states stateDict0).get? 1 = some stateDict0 ∧
    priceRun0.2.agents_completed = stateDict0.agents_completed ∧
    heap0.cells stateDict0.agents_completed = [] ∧
    priceRun0.1.cells stateDict0.agents_completed = ["price"] := by
  exact ⟨rfl, rfl, rfl, rfl, rfl⟩

/-- C3 (amended): orchestrating_agent schedules all five agent tasks on
the very same state dict; each agent takes a shallow copy that re-binds
the same nested objects.  The agents copy data_sources into a fresh list
before appending, so that list is not shared back, but they append to
agents_completed in place at its existing address, so the
agents_completed list is a mutable object shared by reference across the
five concurrently scheduled agents. -/
theorem C3_theorem (h : Heap) (st : StateDict) (pd : PriceData)
    (hds : st.data_sources ≠ h.next) (hac : st.agents_completed ≠ h.next)
    (hda : st.agents_completed ≠ st.data_sources) :
    orchestrating_agent_task_states st = [st, st, st, st, st] ∧
    (price_agent_heap h st pd).2.agents_completed = st.agents_completed ∧
    (price_agent_heap h st pd).2.data_sources = h.next ∧
    (price_agent_heap h st pd).2.data_sources ≠ st.data_sources ∧
    (price_agent_heap h st pd).1.cells st.data_sources = h.cells st.data_sources ∧
    (price_agent_heap h st pd).1.cells st.agents_completed =
      (if "price" ∈ h.cells st.agents_completed then h.cells st.agents_completed
       else h.cells st.agents_completed ++ ["price"]) := by
  refine ⟨rfl, rfl, rfl, fun hc => hds hc.symm, ?_, ?_⟩
  · simp only [price_agent_heap, heapAlloc, heapWrite, dict_copy]
    rw [if_neg hda.symm, if_neg hds]
  · simp only [price_agent_heap, heapAlloc, heapWrite, dict_copy, if_true]
    rw [if_neg hac]

/-- Witness for C3 at the concrete heap and dict of the counterexample
setup, with a fresh allocation pointer distinct from every cell. -/
theorem C3_theorem_witness :
    (price_agent_heap heap0 stateDict0 { price := some 100, source := some "yfinance" }).2.agents_completed
      = stateDict0.agents_completed ∧
    (price_agent_heap heap0 stateDict0 { price := some 100, source := some "yfinance" }).1.cells
        stateDict0.agents_completed
      = (if "price" ∈ heap0.cells stateDict0.agents_completed then
          heap0.cells stateDict0.agents_completed
         else heap0.cells stateDict0.agents_completed ++ ["price"]) := by
  have hthm := C3_theorem heap0 stateDict0
    { price := some 100, source := some "yfinance" }
    (by decide) (by decide) (by decide)
  exact ⟨hthm.2.1, hthm.2.2.2.2.2⟩

end Claims5

section Claims6

/-- A placeholder response for total extraction from an Except. -/
def dummyResponse : StockResponse :=
  { symbol := "", financial_metrics := {}, sentiment_summary := noSentimentDataSummary }

/-- Total extraction of the ok payload of a formatter result. -/
def extractOk (x : Except FmtError StockResponse) : StockResponse :=
  match x with
  | .ok r => r
  | .error _ => dummyResponse

/-- Outcomes on which all five underlying fetches raise. -/
def allFailOutcomes : AgentOutcomes :=
  { price := .error "no price", fundamentals := .error "rate limited",
    analyst := .error "no access", sentiment := .error "no articles",
    company := .error "blocked" }

/-- The state after a full sequential run of the five agents on the
symbol ZZZZZ in which every fetch raised. -/
def zzzzzFailedState : AState := runSeqAgents (root_node "ZZZZZ") allFailOutcomes

/-- Whenever financial metrics are present in the state, format_response
returns a response. -/
theorem format_ok_of_metrics (symbol : String) (st : AState)
    (h : st.financial_metrics.isSome = true) :
    ∃ r, format_response symbol st = .ok r := by
  obtain ⟨fm, hfm⟩ := Option.isSome_iff_exists.mp h
  simp only [format_response, hfm, Option.isSome_some, Bool.not_true, Bool.false_and,
    Bool.and_false, Bool.false_eq_true, if_false]
  exact ⟨_, rfl⟩

/-- C2 counterexample: on the symbol ZZZZZ with every fetch raising, all
five agents fail individually, yet the Response Formatter does not
raise: the failed fundamentals agent stored an empty non-null
FinancialMetrics, so a degraded response is returned. -/
theorem C2_counterexample :
    zzzzzFailedState.price_status = "failed" ∧
    zzzzzFailedState.fundamentals_status = "failed" ∧
    zzzzzFailedState.analyst_status = "failed" ∧
    zzzzzFailedState.sentiment_status = "failed" ∧
    zzzzzFailedState.company_status = "failed" ∧
    zzzzzFailedState.financial_metrics = some emptyMetrics ∧
    format_response "ZZZZZ" zzzzzFailedState
      = .ok (extractOk (format_response "ZZZZZ" zzzzzFailedState)) := by
  exact ⟨rfl, rfl, rfl, rfl, rfl, rfl, rfl⟩

/-- C2 (amended): the Response Formatter raises its no-data error
exactly when every one of the five presence signals is absent - price
dict missing, financial metrics missing, analyst list empty, sentiment
items empty, company name absent or null.  Whenever financial metrics
are present it returns a degraded response instead.  When all five
agents fail individually the formatter does not raise, because the
failed fundamentals agent installs an empty non-null FinancialMetrics,
so the run ends in a degraded response rather than the claimed error. -/
theorem C2_theorem (symbol : String) (st : AState) :
    (format_response symbol st
        = .error (.stockDataError "No data available - all agents failed")
      ↔ (st.price_data = none ∧ st.financial_metrics = none ∧
          st.analyst_ratings = [] ∧ st.sentiment_items = [] ∧
          (st.company_name = none ∨ st.company_name = some none))) ∧
    (st.financial_metrics.isSome = true → ∃ r, format_response symbol st = .ok r) ∧
    (∀ e₁ e₂ e₃ e₄ e₅ : String, ∃ r,
      format_response symbol (runSeqAgents (root_node symbol)
        { price := .error e₁, fundamentals := .error e₂, analyst := .error e₃,
          sentiment := .error e₄, company := .error e₅ }) = .ok r) := by
  refine ⟨?_, format_ok_of_metrics symbol st, ?_⟩
  · constructor
    · intro hEq
      simp only [format_response] at hEq
      split_ifs at hEq with hcond
      · simp only [Bool.and_eq_true, Bool.not_eq_true'] at hcond
        obtain ⟨⟨⟨⟨hp, hf⟩, ha⟩, hs⟩, hc⟩ := hcond
        refine ⟨?_, ?_, ?_, ?_, ?_⟩
        · cases hpp : st.price_data with
          | none => rfl
          | some pd => rw [hpp] at hp; simp at hp
        · cases hff : st.financial_metrics with
          | none => rfl
          | some fm => rw [hff] at hf; simp at hf
        · simpa [List.isEmpty_iff] using ha
        · simpa [List.isEmpty_iff] using hs
        · revert hc
          cases st.company_name with
          | none => exact fun _ => Or.inl rfl
          | some v =>
            cases v with
            | none => exact fun _ => Or.inr rfl
            | some n => intro hc; exact absurd hc (by simp)
      · cases hff : st.financial_metrics with
        | none => rw [hff] at hEq; simp at hEq
        | some fm => rw [hff] at hEq; simp at hEq
    · intro hp
      obtain ⟨h1, h2, h3, h4, h5⟩ := hp
      have hcomp : (match st.company_name with
          | some (some _) => true
          | _ => false) = false := by
        rcases h5 with h | h <;> rw [h]
      simp only [format_response, h1, h2, h3, h4, hcomp, Option.isSome_none,
        Bool.not_false, List.isEmpty_nil, Bool.and_true, Bool.true_and, Bool.and_self,
        if_true]
      simp
  · intro e₁ e₂ e₃ e₄ e₅
    apply format_ok_of_metrics
    rfl

end Claims6

section Claims7

/-- The fold underlying pyMaxByVal returns an element of the list that
no element's count exceeds, and the first such element in order: the
result is a member and is maximal. -/
theorem foldl_pyMaxStep_spec (rest : List (String × ℕ)) : ∀ p : String × ℕ,
    (rest.foldl pyMaxStep p) ∈ p :: rest ∧
    ∀ x ∈ p :: rest, x.2 ≤ (rest.foldl pyMaxStep p).2 := by
  induction rest with
  | nil =>
    intro p
    refine ⟨List.mem_cons_self _ _, ?_⟩
    intro x hx
    rw [List.mem_singleton] at hx
    rw [hx, List.foldl_nil]
  | cons q t ih =>
    intro p
    simp only [List.foldl_cons]
    obtain ⟨hmem, hmax⟩ := ih (pyMaxStep p q)
    have hstep : (pyMaxStep p q).2 ≤ (t.foldl pyMaxStep (pyMaxStep p q)).2 :=
      hmax _ (List.mem_cons_self _ _)
    have hp2 : p.2 ≤ (pyMaxStep p q).2 := by
      unfold pyMaxStep; split_ifs with hpq
      · exact le_of_lt hpq
      · exact le_rfl
    have hq2 : q.2 ≤ (pyMaxStep p q).2 := by
      unfold pyMaxStep; split_ifs with hpq
      · exact le_rfl
      · exact le_of_not_lt hpq
    constructor
    · rcases List.mem_cons.mp hmem with h | h
      · rw [h]
        unfold pyMaxStep
        split_ifs
        · exact List.mem_cons_of_mem _ (List.mem_cons_self _ _)
        · exact List.mem_cons_self _ _
      · exact List.mem_cons_of_mem _ (List.mem_cons_of_mem _ h)
    · intro x hx
      rcases List.mem_cons.mp hx with h | h
      · rw [h]; exact le_trans hp2 hstep
      · rcases List.mem_cons.mp h with h2 | h2
        · rw [h2]; exact le_trans hq2 hstep
        · exact hmax _ (List.mem_cons_of_mem _ h2)

/-- A formatter test state carrying analyst ratings with a clear BUY
majority and enough data to format a response. -/
def buyState : AState :=
  { root_node "AAPL" with
    financial_metrics := some emptyMetrics,
    analyst_ratings :=
      [{ firm := "Morgan Stanley", rating := "Buy" },
       { firm := "Goldman Sachs", rating := "Strong Buy" },
       { firm := "UBS", rating := "Hold" }] }

/-- C8 counterexample: the majority vote over these ratings is BUY, yet
the final response built by format_response carries a null consensus
rating: the formatter never invokes calculate_consensus_rating and the
schema default stands. -/
theorem C8_counterexample :
    calculate_consensus_rating buyState.analyst_ratings = some "BUY" ∧
    format_response "AAPL" buyState = .ok (extractOk (format_response "AAPL" buyState)) ∧
    (extractOk (format_response "AAPL" buyState)).consensus_rating = none ∧
    (extractOk (format_response "AAPL" buyState)).analyst_ratings = buyState.analyst_ratings := by
  exact ⟨rfl, rfl, rfl, rfl⟩

/-- C8 (amended): calculate_consensus_rating implements the majority
vote the claim describes - an empty ratings list yields null, a
non-empty list with no recognizable BUY/HOLD/SELL substring yields HOLD,
and otherwise a keyword of maximal count wins, first-seen order breaking
ties - but format_response never calls it: every response the formatter
returns has a null consensus_rating (the schema default). -/
theorem C8_theorem :
    (∀ (symbol : String) (st : AState) (r : StockResponse),
      format_response symbol st = .ok r → r.consensus_rating = none) ∧
    calculate_consensus_rating [] = none ∧
    (∀ rs : List AnalystRating, rs.isEmpty = false → ratingCounts rs = [] →
      calculate_consensus_rating rs = some "HOLD") ∧
    (∀ (rs : List AnalystRating) (k : String),
      calculate_consensus_rating rs = some k →
      k = "HOLD" ∨ ∃ n, (k, n) ∈ ratingCounts rs ∧ ∀ p ∈ ratingCounts rs, p.2 ≤ n) := by
  refine ⟨?_, rfl, ?_, ?_⟩
  · intro symbol st r h
    simp only [format_response] at h
    split_ifs at h with hcond
    revert h
    cases st.financial_metrics with
    | none => intro h; exact Except.noConfusion h
    | some fm =>
      intro h
      injection h with h
      rw [← h]
  · intro rs h1 h2
    unfold calculate_consensus_rating
    rw [if_neg (by simp [h1]), h2]
    rfl
  · intro rs k h
    unfold calculate_consensus_rating at h
    by_cases hE : rs.isEmpty
    · rw [if_pos hE] at h
      exact Option.noConfusion h
    · rw [if_neg hE] at h
      cases hc : ratingCounts rs with
      | nil =>
        rw [hc] at h
        simp only [pyMaxByVal] at h
        injection h with h
        exact Or.inl h.symm
      | cons p rest =>
        rw [hc] at h
        simp only [pyMaxByVal] at h
        injection h with h
        obtain ⟨hmem, hmax⟩ := foldl_pyMaxStep_spec rest p
        refine Or.inr ⟨(rest.foldl pyMaxStep p).2, ?_, ?_⟩
        · rw [← h, Prod.mk.eta]
          exact hmem
        · intro q hq
          exact hmax q hq

end Claims7

section Claims8

/-- C10 counterexample: the fundamentals agent's failure branch is
reachable.  fetch_financial_metrics validates the symbol before the
never-raising fetch, so on the six-letter symbol ABCDEF it raises
InvalidSymbolError and the agent takes its failure branch - though even
there the stored financial_metrics is non-null. -/
theorem C10_counterexample :
    (fetch_financial_metrics "ABCDEF" (.collected none none none)).isOk = false ∧
    (fundamentals_agent (root_node "ABCDEF")
      (fetch_financial_metrics "ABCDEF" (.collected none none none))).fundamentals_status
      = "failed" ∧
    (fundamentals_agent (root_node "ABCDEF")
      (fetch_financial_metrics "ABCDEF" (.collected none none none))).partial_data = true ∧
    (fundamentals_agent (root_node "ABCDEF")
      (fetch_financial_metrics "ABCDEF" (.collected none none none))).financial_metrics
      = some emptyMetrics := by
  exact ⟨rfl, rfl, rfl, rfl⟩

/-- C10 (amended): fetch_fundamentals_yf is total over provider
outcomes - it returns a FinancialMetrics for every outcome and returns
the empty metrics on any internal exception - and for every symbol that
passes format validation the fundamentals agent's failure branch is
unreachable (the fetch wrapper only raises through the up-front symbol
validation); after the agent has run, financial_metrics is non-null in
either branch. -/
theorem C10_theorem (symbol : String) (o : FundamentalsOutcome) (st : AState)
    (e : Except String FinancialMetrics)
    (h : (validate_stock_symbol symbol).isOk = true) :
    (∀ m, fetch_fundamentals_yf (.raised m) = emptyMetrics) ∧
    fetch_financial_metrics symbol o = .ok (fetch_fundamentals_yf o) ∧
    (fundamentals_agent st (fetch_financial_metrics symbol o)).fundamentals_status
      = "success" ∧
    (fundamentals_agent st (fetch_financial_metrics symbol o)).financial_metrics
      = some (fetch_fundamentals_yf o) ∧
    (fundamentals_agent st e).financial_metrics ≠ none := by
  have hok : fetch_financial_metrics symbol o = .ok (fetch_fundamentals_yf o) := by
    unfold fetch_financial_metrics
    cases hv : validate_stock_symbol symbol with
    | error e₂ => rw [hv] at h; simp [Except.isOk, Except.toBool] at h
    | ok b => rfl
  refine ⟨fun m => rfl, hok, ?_, ?_, ?_⟩
  · rw [hok]; rfl
  · rw [hok]; rfl
  · cases e with
    | ok fm => simp [fundamentals_agent]
    | error m => simp [fundamentals_agent]

/-- Witness for C10 at the symbol AAPL, an empty provider collection and
a failing alternate outcome. -/
theorem C10_theorem_witness :
    fetch_financial_metrics "AAPL" (.collected none none none)
      = .ok (fetch_fundamentals_yf (.collected none none none)) ∧
    (fundamentals_agent (root_node "AAPL")
      (fetch_financial_metrics "AAPL" (.collected none none none))).fundamentals_status
      = "success" ∧
    (fundamentals_agent (root_node "AAPL")
      (.error "boom" : Except String FinancialMetrics)).financial_metrics ≠ none := by
  have hthm := C10_theorem "AAPL" (.collected none none none) (root_node "AAPL")
    (.error "boom") (by decide)
  exact ⟨hthm.2.1, hthm.2.2.1, hthm.2.2.2.2⟩

end Claims8
